import Mathlib

/-
Verification development for the WebGL stable-fluids engine of the
StokesFluidDynamics repository (the fluid-simulation segment of
src/js/tab1-fluids.js).  Grids model the RGBA float textures, with
values restricted to the components the engine actually uses; rationals
stand for the GPU's real arithmetic.  Texture sampling with LINEAR
filtering and CLAMP_TO_EDGE wrapping (createFBO) is modelled by
bilinear interpolation over edge-clamped texel indices; shader passes
that sample only at exact texel centers (offsets of one texel, as in
the divergence, pressure, gradient-subtract and curl shaders) are
modelled by clamped integer texel access, which is what center sampling
reduces to.  The Gaussian falloff exp(-d*d/r) of the splat shader is
transcendental, so the splat takes the falloff curve as an explicit
function parameter; no claim depends on its numeric values.
-/

namespace StokesFluid

abbrev Vec2 : Type := ℚ × ℚ

abbrev Vec3 : Type := ℚ × ℚ × ℚ

/-- A 2D grid of cells, modelling one texture of the engine: `n` is the
resolution (textures are square, `SIM_RESOLUTION` or `DYE_RESOLUTION`),
`data` the cell contents indexed by column and row. -/
structure Grid (α : Type) where
  n : ℕ
  data : ℕ → ℕ → α

/-- Clamp an integer texel index into the valid range `[0, n-1]`,
modelling `CLAMP_TO_EDGE` (createFBO sets `TEXTURE_WRAP_S/T` to
`CLAMP_TO_EDGE`). -/
def clampNat (n : ℕ) (i : ℤ) : ℕ := (min (max i 0) ((n : ℤ) - 1)).toNat

/-- Edge-clamped texel access. -/
def Grid.texelC {α : Type} (g : Grid α) (i j : ℤ) : α :=
  g.data (clampNat g.n i) (clampNat g.n j)

/-- A grid holding the same value in every cell (output of a full-quad
blit with the clear shader). -/
def constGrid {α : Type} (n : ℕ) (c : α) : Grid α := ⟨n, fun _ _ => c⟩

/-- Clamp a normalized texture coordinate into `[0,1]`. -/
def clamp01 (u : ℚ) : ℚ := max 0 (min u 1)

/-- Texel-space coordinate of a normalized coordinate: cell centers sit
at `(i + 1/2) / n`, so `u * n - 1/2` is the continuous texel index. -/
def texX (n : ℕ) (u : ℚ) : ℚ := u * (n : ℚ) - 1 / 2

/-- Lower texel index used by bilinear filtering. -/
def idx (n : ℕ) (u : ℚ) : ℤ := ⌊texX n u⌋

/-- Interpolation weight of the upper texel. -/
def fpart (n : ℕ) (u : ℚ) : ℚ := texX n u - ((idx n u : ℤ) : ℚ)

/-- One-dimensional linear interpolation between the two texels
enclosing coordinate `u`. -/
def mix1 {α : Type} [AddCommMonoid α] [Module ℚ α] (n : ℕ) (f : ℤ → α) (u : ℚ) : α :=
  (1 - fpart n u) • f (idx n u) + fpart n u • f (idx n u + 1)

/-- `texture2D` with LINEAR filtering and CLAMP_TO_EDGE wrapping:
bilinear interpolation of the four enclosing texels, with texel indices
edge-clamped. -/
def Grid.sample {α : Type} [AddCommMonoid α] [Module ℚ α] (g : Grid α) (u v : ℚ) : α :=
  mix1 g.n (fun j => mix1 g.n (fun i => g.texelC i j) u) v

/-- Normalized coordinate of the center of cell `x` in a grid of `n`
cells (the `v_uv` a fragment sees when rendering a full quad into an
`n`-wide target). -/
def cellU (n x : ℕ) : ℚ := ((x : ℚ) + 1 / 2) / (n : ℚ)

/-- A double-buffered texture pair (createDoubleFBO): a `read` and a
`write` framebuffer. -/
structure DBuf (α : Type) where
  read : α
  write : α

/-- Exchange the read/write roles (the `swap` closure of
createDoubleFBO). -/
def DBuf.swap {α : Type} (b : DBuf α) : DBuf α := ⟨b.write, b.read⟩

/-- Render a new grid into the write buffer, then swap — the ubiquitous
`blit(X.write); X.swap()` pattern of the engine. -/
def DBuf.writeSwap {α : Type} (b : DBuf α) (g : α) : DBuf α := DBuf.swap ⟨b.read, g⟩

/-- First hue adjustment inside hue2rgb: `if (t < 0) t += 1`. -/
def hueAdjust (t : ℚ) : ℚ := if t < 0 then t + 1 else t

/-- Second hue adjustment inside hue2rgb: `if (t > 1) t -= 1`, applied
to the already adjusted value. -/
def hueWrap (t : ℚ) : ℚ := if hueAdjust t > 1 then hueAdjust t - 1 else hueAdjust t

/-- The hue2rgb helper of hslToRgb, translated clause by clause from
the source. -/
def hue2rgb (p q t : ℚ) : ℚ :=
  if hueWrap t < 1 / 6 then p + (q - p) * 6 * hueWrap t
  else if hueWrap t < 1 / 2 then q
  else if hueWrap t < 2 / 3 then p + (q - p) * (2 / 3 - hueWrap t) * 6
  else p

/-- The intermediate `q` of hslToRgb. -/
def hslQ (s l : ℚ) : ℚ := if l < 1 / 2 then l * (1 + s) else l + s - l * s

/-- hslToRgb from the source: converts hue/saturation/lightness to an
rgb triple; `p = 2*l - q`. -/
def hslToRgb (h s l : ℚ) : Vec3 :=
  if s = 0 then (l, l, l)
  else
    (hue2rgb (2 * l - hslQ s l) (hslQ s l) (h + 1 / 3),
     hue2rgb (2 * l - hslQ s l) (hslQ s l) h,
     hue2rgb (2 * l - hslQ s l) (hslQ s l) (h - 1 / 3))

/-- The splat shader: adds `splash * color` to the existing texel, with
`splash = gauss(d*d / radius)` for the aspect-corrected distance `d`
from the splat point (`gauss` models `t := exp(-t)`, which is
transcendental and therefore a parameter of the model). -/
def splatShader {α : Type} [AddCommMonoid α] [Module ℚ α] (gauss : ℚ → ℚ) (g : Grid α)
    (point : Vec2) (color : α) (radius aspect : ℚ) : Grid α :=
  ⟨g.n, fun x y =>
    g.data x y +
      gauss (((cellU g.n x - point.1) * aspect * ((cellU g.n x - point.1) * aspect)
              + (cellU g.n y - point.2) * (cellU g.n y - point.2)) / radius) • color⟩

/-- The advection shader: semi-Lagrangian backtrace.  Each output cell
samples the transporting velocity at its own center, steps backwards by
`dt * vel * texelSize` in normalized coordinates, samples the source
there bilinearly, and scales by the dissipation factor.  `texelSize` is
one over the target resolution, as set up in `step`. -/
def advectionShader {α : Type} [AddCommMonoid α] [Module ℚ α] (vel : Grid Vec2)
    (src : Grid α) (dt diss : ℚ) : Grid α :=
  ⟨src.n, fun x y =>
    diss • src.sample
      (cellU src.n x - dt * (vel.sample (cellU src.n x) (cellU src.n y)).1 * (1 / (src.n : ℚ)))
      (cellU src.n y - dt * (vel.sample (cellU src.n x) (cellU src.n y)).2 * (1 / (src.n : ℚ)))⟩

/-- The divergence shader: `0.5 * (R - L + T - B)` of the velocity
x-components of the horizontal neighbors and y-components of the
vertical neighbors, edge-clamped. -/
def divergenceShader (vel : Grid Vec2) : Grid ℚ :=
  ⟨vel.n, fun x y =>
    ((vel.texelC ((x : ℤ) + 1) (y : ℤ)).1 - (vel.texelC ((x : ℤ) - 1) (y : ℤ)).1
      + (vel.texelC (x : ℤ) ((y : ℤ) + 1)).2 - (vel.texelC (x : ℤ) ((y : ℤ) - 1)).2) * (1 / 2)⟩

/-- The pressure (Jacobi) shader: `(L + R + B + T - C) * 0.25` where
L/R/B/T are the edge-clamped neighbor pressures of the previous iterate
and C the local divergence. -/
def pressureShader (p div : Grid ℚ) : Grid ℚ :=
  ⟨p.n, fun x y =>
    (p.texelC ((x : ℤ) - 1) (y : ℤ) + p.texelC ((x : ℤ) + 1) (y : ℤ)
      + p.texelC (x : ℤ) ((y : ℤ) - 1) + p.texelC (x : ℤ) ((y : ℤ) + 1)
      - div.texelC (x : ℤ) (y : ℤ)) * (1 / 4)⟩

/-- The gradient-subtract shader: `vel -= vec2(R - L, T - B) * 0.5`
with edge-clamped pressure neighbors. -/
def gradientSubtractShader (p : Grid ℚ) (vel : Grid Vec2) : Grid Vec2 :=
  ⟨vel.n, fun x y =>
    ((vel.texelC (x : ℤ) (y : ℤ)).1
       - (p.texelC ((x : ℤ) + 1) (y : ℤ) - p.texelC ((x : ℤ) - 1) (y : ℤ)) * (1 / 2),
     (vel.texelC (x : ℤ) (y : ℤ)).2
       - (p.texelC (x : ℤ) ((y : ℤ) + 1) - p.texelC (x : ℤ) ((y : ℤ) - 1)) * (1 / 2))⟩

/-- The curl shader: `((R - L) - (T - B)) * 0.5` where L/R are
y-components of the horizontal neighbors and B/T are x-components of
the vertical neighbors. -/
def curlShader (vel : Grid Vec2) : Grid ℚ :=
  ⟨vel.n, fun x y =>
    (((vel.texelC ((x : ℤ) + 1) (y : ℤ)).2 - (vel.texelC ((x : ℤ) - 1) (y : ℤ)).2)
      - ((vel.texelC (x : ℤ) ((y : ℤ) + 1)).1 - (vel.texelC (x : ℤ) ((y : ℤ) - 1)).1)) * (1 / 2)⟩

/-- Which field the display selector shows (`simParams.displayMode`). -/
inductive DisplayMode : Type
  | dye
  | velocity
  | pressure
  | curl

/-- The tunable simulation parameters (`simParams`);
`pressureIterations` is an integer because `updateIterations` stores
the result of `parseInt` without validation. -/
structure SimParams where
  viscosity : ℚ
  diffusion : ℚ
  pressureIterations : ℤ
  displayMode : DisplayMode

/-- Pointer state consumed by the injection stage: current and previous
normalized position, and whether the mouse is down. -/
structure Pointer where
  pos : Vec2
  last : Vec2
  down : Bool

/-- The complete mutable state of the engine: the five textures
(velocity, pressure and dye double-buffered; divergence and curl
single), the parameters, and the pointer. -/
structure FluidState where
  velocity : DBuf (Grid Vec2)
  pressure : DBuf (Grid ℚ)
  divergence : Grid ℚ
  curl : Grid ℚ
  dye : DBuf (Grid Vec3)
  params : SimParams
  pointer : Pointer

/-- The splat function: adds a velocity impulse `(dx*10, dy*10)` of
radius 0.002 and a dye impulse of the current hue's color (saturation
0.8, lightness 0.5) of radius 0.003 at the given point, each via
write-then-swap.  `hue` stands for `(Date.now() * 0.001) % 1`. -/
def splat (gauss : ℚ → ℚ) (hue aspect : ℚ) (x y dx dy : ℚ) (s : FluidState) : FluidState :=
  { s with
    velocity := s.velocity.writeSwap
      (splatShader gauss s.velocity.read (x, y) (dx * 10, dy * 10) (1 / 500) aspect),
    dye := s.dye.writeSwap
      (splatShader gauss s.dye.read (x, y) (hslToRgb hue (4 / 5) (1 / 2)) (3 / 1000) aspect) }

/-- Injection stage of `step`: when the mouse is down, splat at the
current pointer position with the pointer displacement as velocity
delta; otherwise do nothing. -/
def stInject (gauss : ℚ → ℚ) (hue aspect : ℚ) (s : FluidState) : FluidState :=
  if s.pointer.down then
    splat gauss hue aspect s.pointer.pos.1 s.pointer.pos.2
      (s.pointer.pos.1 - s.pointer.last.1) (s.pointer.pos.2 - s.pointer.last.2) s
  else s

/-- Velocity self-advection: advects the velocity read buffer by itself
with dissipation `1 - viscosity * 0.1`, writing into the write buffer
and swapping. -/
def stAdvectVel (dt : ℚ) (s : FluidState) : FluidState :=
  { s with
    velocity := s.velocity.writeSwap
      (advectionShader s.velocity.read s.velocity.read dt (1 - s.params.viscosity * (1 / 10))) }

/-- Dye advection with dissipation `1 - diffusion * 0.01`.  Texture
unit 0 still holds the pre-advection velocity texture (the buffer the
velocity swap just rotated out, i.e. the current write buffer), so the
dye is transported by the velocity as it stood after injection. -/
def stAdvectDye (dt : ℚ) (s : FluidState) : FluidState :=
  { s with
    dye := s.dye.writeSwap
      (advectionShader s.velocity.write s.dye.read dt (1 - s.params.diffusion * (1 / 100))) }

/-- Divergence stage: overwrites the single-buffered divergence texture
from the current velocity read buffer. -/
def stDivergence (s : FluidState) : FluidState :=
  { s with divergence := divergenceShader s.velocity.read }

/-- Clear-pressure stage: blits the clear color 0 into the pressure
read buffer (no swap), zeroing what the solver starts from. -/
def stClearPressure (s : FluidState) : FluidState :=
  { s with pressure := DBuf.mk (constGrid s.pressure.read.n 0) s.pressure.write }

/-- One Jacobi iteration on a pressure double buffer: run the pressure
shader from the read buffer into the write buffer, then swap. -/
def jacobiOnce (div : Grid ℚ) (pb : DBuf (Grid ℚ)) : DBuf (Grid ℚ) :=
  pb.writeSwap (pressureShader pb.read div)

/-- One Jacobi iteration as a stage on the full state (the body of the
pressure loop in `step`). -/
def stJacobi (s : FluidState) : FluidState :=
  { s with pressure := jacobiOnce s.divergence s.pressure }

/-- Gradient-subtraction stage: projects the velocity using the solved
pressure read buffer, writing into the velocity write buffer and
swapping. -/
def stGradSub (s : FluidState) : FluidState :=
  { s with
    velocity := s.velocity.writeSwap
      (gradientSubtractShader s.pressure.read s.velocity.read) }

/-- Curl stage: overwrites the single-buffered curl texture from the
projected velocity (display only). -/
def stCurl (s : FluidState) : FluidState :=
  { s with curl := curlShader s.velocity.read }

/-- The state after injection and both advections. -/
def postAdvect (dt : ℚ) (gauss : ℚ → ℚ) (hue aspect : ℚ) (s : FluidState) : FluidState :=
  stAdvectDye dt (stAdvectVel dt (stInject gauss hue aspect s))

/-- The state right before the first pressure iteration: divergence
computed, pressure read buffer cleared to zero. -/
def preSolve (dt : ℚ) (gauss : ℚ → ℚ) (hue aspect : ℚ) (s : FluidState) : FluidState :=
  stClearPressure (stDivergence (postAdvect dt gauss hue aspect s))

/-- The state after the pressure loop: `pressureIterations` Jacobi
iterations (a negative stored count runs the `for` loop zero times,
hence `Int.toNat`). -/
def postSolve (dt : ℚ) (gauss : ℚ → ℚ) (hue aspect : ℚ) (s : FluidState) : FluidState :=
  stJacobi^[(preSolve dt gauss hue aspect s).params.pressureIterations.toNat]
    (preSolve dt gauss hue aspect s)

/-- `step(dt)` of the source: injection, velocity advection, dye
advection, divergence, pressure clear, the Jacobi loop, gradient
subtraction, curl. -/
def step (dt : ℚ) (gauss : ℚ → ℚ) (hue aspect : ℚ) (s : FluidState) : FluidState :=
  stCurl (stGradSub (postSolve dt gauss hue aspect s))

/-- Names for the stages of one tick, used to state the execution
order. -/
inductive StageTag : Type
  | injection
  | advectVelocity
  | advectDye
  | divergence
  | clearPressure
  | jacobiIteration
  | gradientSubtract
  | curl

/-- Interpretation of a stage name as a state transformer. -/
def runStage (dt : ℚ) (gauss : ℚ → ℚ) (hue aspect : ℚ) : StageTag → FluidState → FluidState
  | StageTag.injection => stInject gauss hue aspect
  | StageTag.advectVelocity => stAdvectVel dt
  | StageTag.advectDye => stAdvectDye dt
  | StageTag.divergence => stDivergence
  | StageTag.clearPressure => stClearPressure
  | StageTag.jacobiIteration => stJacobi
  | StageTag.gradientSubtract => stGradSub
  | StageTag.curl => stCurl

/-- The fixed stage order of one tick: injection only when the pointer
is active, then velocity advection, dye advection, divergence, the
pressure clear, the configured number of Jacobi iterations, gradient
subtraction, and curl. -/
def schedule : Bool → ℕ → List StageTag
  | false, iters =>
      [StageTag.advectVelocity, StageTag.advectDye, StageTag.divergence, StageTag.clearPressure]
        ++ List.replicate iters StageTag.jacobiIteration
        ++ [StageTag.gradientSubtract, StageTag.curl]
  | true, iters =>
      StageTag.injection ::
        ([StageTag.advectVelocity, StageTag.advectDye, StageTag.divergence, StageTag.clearPressure]
          ++ List.replicate iters StageTag.jacobiIteration
          ++ [StageTag.gradientSubtract, StageTag.curl])

/-- The texture handed to the display shader, tagged by field kind
(the switch in `display()`). -/
inductive DisplayOut : Type
  | dyeTex (g : Grid Vec3)
  | velocityTex (g : Grid Vec2)
  | pressureTex (g : Grid ℚ)
  | curlTex (g : Grid ℚ)

/-- The display selector: picks the current read buffer of the chosen
field (dye is the default branch). -/
def display (s : FluidState) : DisplayOut :=
  match s.params.displayMode with
  | DisplayMode.velocity => DisplayOut.velocityTex s.velocity.read
  | DisplayMode.pressure => DisplayOut.pressureTex s.pressure.read
  | DisplayMode.curl => DisplayOut.curlTex s.curl
  | DisplayMode.dye => DisplayOut.dyeTex s.dye.read

/-- One animation tick (`render()`): step unless paused, then display
the current state either way. -/
def render (paused : Bool) (dt : ℚ) (gauss : ℚ → ℚ) (hue aspect : ℚ) (s : FluidState) :
    FluidState × DisplayOut :=
  ((if paused then s else step dt gauss hue aspect s),
   display (if paused then s else step dt gauss hue aspect s))

/-- `togglePause`: flips the pause flag. -/
def togglePause (b : Bool) : Bool := !b

/-- `updateIterations`: stores `parseInt(val)` into the parameters with
no range check. -/
def updateIterations (val : ℤ) (p : SimParams) : SimParams :=
  { p with pressureIterations := val }

/-- `updateViscosity`: stores `parseFloat(val)` with no range check. -/
def updateViscosity (val : ℚ) (p : SimParams) : SimParams :=
  { p with viscosity := val }

/-- `updateDiffusion`: stores `parseFloat(val)` with no range check. -/
def updateDiffusion (val : ℚ) (p : SimParams) : SimParams :=
  { p with diffusion := val }

/-- `clearFluid()`: blits the clear color into both velocity buffers,
both pressure buffers and both dye buffers.  The divergence and curl
textures are not touched by the source. -/
def clearFluid (s : FluidState) : FluidState :=
  { s with
    velocity := DBuf.mk (constGrid s.velocity.read.n (0, 0)) (constGrid s.velocity.write.n (0, 0)),
    pressure := DBuf.mk (constGrid s.pressure.read.n 0) (constGrid s.pressure.write.n 0),
    dye := DBuf.mk (constGrid s.dye.read.n (0, 0, 0)) (constGrid s.dye.write.n (0, 0, 0)) }

/-- The initial parameter values of `simParams`. -/
def defaultParams : SimParams :=
  { viscosity := 1 / 10, diffusion := 1 / 5, pressureIterations := 20,
    displayMode := DisplayMode.dye }

/-- The fixed time step `render` passes to `step`. -/
def dt0 : ℚ := 16 / 1000

/-- A concrete stand-in falloff curve for splat evaluation in
witnesses. -/
def gauss0 : ℚ → ℚ := fun _ => 0

/-- Concrete hue for witnesses. -/
def hue0 : ℚ := 0

/-- Concrete aspect ratio for witnesses. -/
def aspect0 : ℚ := 1

/-- A 4x4 velocity grid with a unit rightward impulse at cell (1,1). -/
def impulseGrid : Grid Vec2 :=
  ⟨4, fun x y => if x = 1 ∧ y = 1 then (1, 0) else (0, 0)⟩

/-- The 4x4 scenario state: impulse velocity, junk pressure, zero dye,
pressure-iteration count 0, pointer inactive. -/
def exS : FluidState :=
  { velocity := DBuf.mk impulseGrid (constGrid 4 (0, 0)),
    pressure := DBuf.mk (constGrid 4 7) (constGrid 4 7),
    divergence := constGrid 4 0,
    curl := constGrid 4 0,
    dye := DBuf.mk (constGrid 4 (0, 0, 0)) (constGrid 4 (0, 0, 0)),
    params := { viscosity := 1 / 10, diffusion := 1 / 5, pressureIterations := 0,
                displayMode := DisplayMode.dye },
    pointer := { pos := (0, 0), last := (0, 0), down := false } }

/-- A state whose curl texture is nonzero everywhere, exhibiting what
`clearFluid` leaves behind. -/
def cState : FluidState :=
  { velocity := DBuf.mk (constGrid 4 (1, 0)) (constGrid 4 (0, 0)),
    pressure := DBuf.mk (constGrid 4 5) (constGrid 4 5),
    divergence := constGrid 4 2,
    curl := constGrid 4 1,
    dye := DBuf.mk (constGrid 4 (1, 1, 1)) (constGrid 4 (0, 0, 0)),
    params := defaultParams,
    pointer := { pos := (0, 0), last := (0, 0), down := false } }

/-- A state carrying the out-of-range iteration count `-1` as stored by
`updateIterations`. -/
def negState : FluidState :=
  { velocity := DBuf.mk (constGrid 4 (0, 0)) (constGrid 4 (0, 0)),
    pressure := DBuf.mk (constGrid 4 3) (constGrid 4 0),
    divergence := constGrid 4 1,
    curl := constGrid 4 0,
    dye := DBuf.mk (constGrid 4 (0, 0, 0)) (constGrid 4 (0, 0, 0)),
    params := updateIterations (-1) defaultParams,
    pointer := { pos := (0, 0), last := (0, 0), down := false } }

/-- A concrete 2x2 scalar grid for the sampling witness. -/
def g9 : Grid ℚ := ⟨2, fun x y => (x : ℚ) + 10 * (y : ℚ)⟩

section Helpers

variable {α : Type}

@[simp] lemma stAdvectVel_params (dt : ℚ) (s : FluidState) :
    (stAdvectVel dt s).params = s.params := rfl

@[simp] lemma stAdvectDye_params (dt : ℚ) (s : FluidState) :
    (stAdvectDye dt s).params = s.params := rfl

@[simp] lemma stDivergence_params (s : FluidState) :
    (stDivergence s).params = s.params := rfl

@[simp] lemma stClearPressure_params (s : FluidState) :
    (stClearPressure s).params = s.params := rfl

@[simp] lemma stJacobi_params (s : FluidState) :
    (stJacobi s).params = s.params := rfl

@[simp] lemma stGradSub_params (s : FluidState) :
    (stGradSub s).params = s.params := rfl

@[simp] lemma stCurl_params (s : FluidState) :
    (stCurl s).params = s.params := rfl

@[simp] lemma stInject_params (gauss : ℚ → ℚ) (hue aspect : ℚ) (s : FluidState) :
    (stInject gauss hue aspect s).params = s.params := by
  unfold stInject
  split
  · rfl
  · rfl

lemma postAdvect_params (dt : ℚ) (gauss : ℚ → ℚ) (hue aspect : ℚ) (s : FluidState) :
    (postAdvect dt gauss hue aspect s).params = s.params := by
  unfold postAdvect
  simp

lemma preSolve_params (dt : ℚ) (gauss : ℚ → ℚ) (hue aspect : ℚ) (s : FluidState) :
    (preSolve dt gauss hue aspect s).params = s.params := by
  unfold preSolve
  simp [postAdvect_params]

lemma stInject_inactive (gauss : ℚ → ℚ) (hue aspect : ℚ) (s : FluidState)
    (h : s.pointer.down = false) : stInject gauss hue aspect s = s := by
  unfold stInject
  simp [h]

lemma stJacobi_iterate_divergence (s : FluidState) (m : ℕ) :
    (stJacobi^[m] s).divergence = s.divergence := by
  induction m with
  | zero => rfl
  | succ k ih =>
    rw [Function.iterate_succ_apply']
    exact ih

lemma stJacobi_iterate_pressure (s : FluidState) (m : ℕ) :
    (stJacobi^[m] s).pressure = (jacobiOnce s.divergence)^[m] s.pressure := by
  induction m with
  | zero => rfl
  | succ k ih =>
    rw [Function.iterate_succ_apply', Function.iterate_succ_apply']
    show jacobiOnce (stJacobi^[k] s).divergence (stJacobi^[k] s).pressure
        = jacobiOnce s.divergence ((jacobiOnce s.divergence)^[k] s.pressure)
    rw [stJacobi_iterate_divergence s k, ih]

lemma clampNat_eq_of_lt {n x : ℕ} (hx : x < n) : clampNat n (x : ℤ) = x := by
  unfold clampNat
  omega

lemma clampNat_clamp (n : ℕ) (i : ℤ) :
    clampNat n (min (max i 0) ((n : ℤ) - 1)) = clampNat n i := by
  unfold clampNat
  omega

lemma texelC_clamp_i (g : Grid α) (i j : ℤ) :
    g.texelC (min (max i 0) ((g.n : ℤ) - 1)) j = g.texelC i j := by
  unfold Grid.texelC
  rw [clampNat_clamp]

lemma texelC_clamp_j (g : Grid α) (i j : ℤ) :
    g.texelC i (min (max j 0) ((g.n : ℤ) - 1)) = g.texelC i j := by
  unfold Grid.texelC
  rw [clampNat_clamp]

lemma texelC_of_lt (g : Grid α) (x y : ℕ) (hx : x < g.n) (hy : y < g.n) :
    g.texelC (x : ℤ) (y : ℤ) = g.data x y := by
  unfold Grid.texelC
  rw [clampNat_eq_of_lt hx, clampNat_eq_of_lt hy]

variable [AddCommMonoid α] [Module ℚ α]

lemma mix_weights (a : ℚ) (c : α) : (1 - a) • c + a • c = c := by
  rw [← add_smul, show (1 - a) + a = (1 : ℚ) by ring, one_smul]

lemma idx_at_zero (n : ℕ) : idx n 0 = -1 := by
  unfold idx texX
  rw [show (0 : ℚ) * (n : ℚ) - 1 / 2 = -(1 / 2) by ring]
  apply Int.floor_eq_iff.mpr
  constructor
  · push_cast
    norm_num
  · push_cast
    norm_num

lemma idx_at_one (n : ℕ) : idx n 1 = (n : ℤ) - 1 := by
  unfold idx texX
  apply Int.floor_eq_iff.mpr
  constructor
  · push_cast
    linarith
  · push_cast
    linarith

/-- Linear interpolation over an index-clamped family is unchanged by
clamping the coordinate into the unit interval. -/
lemma mix1_clamp (n : ℕ) (hn : 0 < n) (f : ℤ → α)
    (hf : ∀ i : ℤ, f (min (max i 0) ((n : ℤ) - 1)) = f i) (u : ℚ) :
    mix1 n f (clamp01 u) = mix1 n f u := by
  by_cases h0 : u < 0
  · have hcl : clamp01 u = 0 := by
      unfold clamp01
      rw [min_eq_left (by linarith), max_eq_left (by linarith)]
    have hnn : (0 : ℚ) ≤ (n : ℚ) := Nat.cast_nonneg n
    have hmul : u * (n : ℚ) ≤ 0 := by nlinarith
    have hlt : idx n u < 0 := by
      apply Int.floor_lt.mpr
      push_cast
      unfold texX
      linarith
    have hidx : idx n u ≤ -1 := by omega
    have e1 : f (idx n u) = f 0 := by
      rw [← hf (idx n u)]
      congr 1
      omega
    have e2 : f (idx n u + 1) = f 0 := by
      rw [← hf (idx n u + 1)]
      congr 1
      omega
    have e3 : f (-1) = f 0 := by
      rw [← hf (-1)]
      congr 1
      omega
    have hL : mix1 n f 0 = f 0 := by
      unfold mix1
      rw [idx_at_zero, e3, show (-1 : ℤ) + 1 = 0 by omega]
      exact mix_weights _ _
    have hR : mix1 n f u = f 0 := by
      unfold mix1
      rw [e1, e2]
      exact mix_weights _ _
    rw [hcl, hL, hR]
  · by_cases h1 : 1 < u
    · have hcl : clamp01 u = 1 := by
        unfold clamp01
        rw [min_eq_right (by linarith), max_eq_right (by norm_num)]
      have hnq : (1 : ℚ) ≤ (n : ℚ) := by exact_mod_cast hn
      have hmul : (n : ℚ) < u * (n : ℚ) := by nlinarith
      have hidx : (n : ℤ) - 1 ≤ idx n u := by
        apply Int.le_floor.mpr
        push_cast
        unfold texX
        linarith
      have e1 : f (idx n u) = f ((n : ℤ) - 1) := by
        rw [← hf (idx n u)]
        congr 1
        omega
      have e2 : f (idx n u + 1) = f ((n : ℤ) - 1) := by
        rw [← hf (idx n u + 1)]
        congr 1
        omega
      have e3 : f ((n : ℤ) - 1 + 1) = f ((n : ℤ) - 1) := by
        rw [← hf ((n : ℤ) - 1 + 1)]
        congr 1
        omega
      have hL : mix1 n f 1 = f ((n : ℤ) - 1) := by
        unfold mix1
        rw [idx_at_one n, e3]
        exact mix_weights _ _
      have hR : mix1 n f u = f ((n : ℤ) - 1) := by
        unfold mix1
        rw [e1, e2]
        exact mix_weights _ _
      rw [hcl, hL, hR]
    · have hcl : clamp01 u = u := by
        unfold clamp01
        rw [min_eq_left (by linarith), max_eq_right (by linarith)]
      rw [hcl]

lemma mixCol_clamp (g : Grid α) (u : ℚ) (j : ℤ) :
    mix1 g.n (fun i => g.texelC i (min (max j 0) ((g.n : ℤ) - 1))) u
      = mix1 g.n (fun i => g.texelC i j) u := by
  unfold mix1
  simp only [texelC_clamp_j]

/-- Bilinear sampling is unchanged by clamping the coordinates into the
unit square. -/
lemma sample_eq_clamp (g : Grid α) (hn : 0 < g.n) (u v : ℚ) :
    g.sample (clamp01 u) (clamp01 v) = g.sample u v := by
  unfold Grid.sample
  have hinner : (fun j => mix1 g.n (fun i => g.texelC i j) (clamp01 u))
      = fun j => mix1 g.n (fun i => g.texelC i j) u := by
    funext j
    exact mix1_clamp g.n hn (fun i => g.texelC i j) (fun i => texelC_clamp_i g i j) u
  rw [hinner]
  exact mix1_clamp g.n hn (fun j => mix1 g.n (fun i => g.texelC i j) u)
    (fun j => mixCol_clamp g u j) v

end Helpers

section HueHelpers

lemma hueWrap_bounds (t : ℚ) (h1 : -1 ≤ t) (h2 : t ≤ 2) :
    0 ≤ hueWrap t ∧ hueWrap t ≤ 1 := by
  unfold hueWrap hueAdjust
  split_ifs <;> constructor <;> linarith

lemma hue2rgb_bounds (p q t : ℚ) (hp : 0 ≤ p) (hpq : p ≤ q) (hq : q ≤ 1)
    (h1 : -1 ≤ t) (h2 : t ≤ 2) : 0 ≤ hue2rgb p q t ∧ hue2rgb p q t ≤ 1 := by
  obtain ⟨hw0, hw1⟩ := hueWrap_bounds t h1 h2
  unfold hue2rgb
  split_ifs with ha hb hc
  · constructor
    · nlinarith [mul_nonneg (sub_nonneg.mpr hpq) hw0]
    · nlinarith [mul_nonneg (sub_nonneg.mpr hpq) (by linarith : (0 : ℚ) ≤ 1 / 6 - hueWrap t)]
  · exact ⟨by linarith, hq⟩
  · constructor
    · nlinarith [mul_nonneg (sub_nonneg.mpr hpq) (by linarith : (0 : ℚ) ≤ 2 / 3 - hueWrap t)]
    · nlinarith [mul_nonneg (sub_nonneg.mpr hpq) (by linarith : (0 : ℚ) ≤ hueWrap t - 1 / 2)]
  · exact ⟨hp, le_trans hpq hq⟩

lemma hslQ_bounds (s l : ℚ) (hs0 : 0 ≤ s) (hs1 : s ≤ 1) (hl0 : 0 ≤ l) (hl1 : l ≤ 1) :
    0 ≤ 2 * l - hslQ s l ∧ 2 * l - hslQ s l ≤ hslQ s l ∧ hslQ s l ≤ 1 := by
  unfold hslQ
  split_ifs with h
  · refine ⟨?_, ?_, ?_⟩
    · nlinarith [mul_nonneg hl0 (by linarith : (0 : ℚ) ≤ 1 - s)]
    · nlinarith [mul_nonneg hl0 hs0]
    · nlinarith [mul_lt_mul_of_pos_right h (by linarith : (0 : ℚ) < 1 + s)]
  · refine ⟨?_, ?_, ?_⟩
    · nlinarith [mul_le_of_le_one_left (by linarith : (0 : ℚ) ≤ 1 - l) hs1]
    · nlinarith [mul_nonneg hs0 (by linarith : (0 : ℚ) ≤ 1 - l)]
    · nlinarith [mul_nonneg hs0 (by linarith : (0 : ℚ) ≤ 1 - l)]

end HueHelpers

section StepHelpers

lemma gradientSubtract_zero_pressure (m : ℕ) (vel : Grid Vec2) (x y : ℕ)
    (hx : x < vel.n) (hy : y < vel.n) :
    (gradientSubtractShader (constGrid m 0) vel).data x y = vel.data x y := by
  show ((vel.texelC (x : ℤ) (y : ℤ)).1 - ((0 : ℚ) - 0) * (1 / 2),
        (vel.texelC (x : ℤ) (y : ℤ)).2 - ((0 : ℚ) - 0) * (1 / 2)) = vel.data x y
  rw [texelC_of_lt vel x y hx hy]
  simp

end StepHelpers

section Claims

/-- Claim C1: every non-paused invocation of `step` executes exactly
the fixed stage order — injection (present exactly when the pointer is
active), velocity self-advection, dye advection, divergence, the
pressure-clear that initializes the solver, the configured number of
Jacobi iterations in strict sequence, gradient subtraction, curl — as
a left fold that threads each stage's completed output state into the
next stage, so no stage runs out of order and each stage reads only
the completed output of earlier stages of the same tick. -/
theorem step_follows_schedule (dt : ℚ) (gauss : ℚ → ℚ) (hue aspect : ℚ) (s : FluidState) :
    step dt gauss hue aspect s
      = (schedule s.pointer.down s.params.pressureIterations.toNat).foldl
          (fun t tag => runStage dt gauss hue aspect tag t) s := by
  have hfold : ∀ (m : ℕ) (t : FluidState),
      List.foldl (fun t tag => runStage dt gauss hue aspect tag t) t
        (List.replicate m StageTag.jacobiIteration) = stJacobi^[m] t := by
    intro m
    induction m with
    | zero => intro t; rfl
    | succ k ih =>
      intro t
      rw [List.replicate_succ, List.foldl_cons, Function.iterate_succ_apply]
      exact ih (stJacobi t)
  cases hd : s.pointer.down
  · simp only [schedule, List.foldl_append, List.foldl_cons, List.foldl_nil, hfold]
    simp only [runStage]
    unfold step postSolve preSolve postAdvect
    rw [stInject_inactive gauss hue aspect s hd]
    simp only [stClearPressure_params, stDivergence_params, stAdvectDye_params,
      stAdvectVel_params]
  · simp only [schedule, List.foldl_append, List.foldl_cons, List.foldl_nil, hfold]
    simp only [runStage]
    unfold step postSolve preSolve postAdvect
    simp only [stClearPressure_params, stDivergence_params, stAdvectDye_params,
      stAdvectVel_params, stInject_params]

/-- Claim C2: immediately before the first Jacobi iteration of any
step — i.e. in the state the solver loop starts from — the pressure
read buffer is zero at every cell, regardless of the pressure left by
the previous step, and `step` is exactly the solver loop applied to
that cleared state followed by gradient subtraction and curl. -/
theorem pressure_cleared_before_solve (dt : ℚ) (gauss : ℚ → ℚ) (hue aspect : ℚ)
    (s : FluidState) :
    (∀ x y : ℕ, (preSolve dt gauss hue aspect s).pressure.read.data x y = 0)
    ∧ step dt gauss hue aspect s
        = stCurl (stGradSub
            (stJacobi^[(preSolve dt gauss hue aspect s).params.pressureIterations.toNat]
              (preSolve dt gauss hue aspect s))) :=
  ⟨fun _ _ => rfl, rfl⟩

/-- Claim C3: each pressure iteration writes, for every cell, the
value (left + right + bottom + top neighbor pressure minus local
divergence) / 4, computed entirely from the previous iterate's read
buffer with edge-clamped neighbor sampling, into the write buffer and
then swaps (so the new write buffer is the previous read buffer); the
loop inside `step` is exactly this iteration applied the configured
number of times to the fixed divergence field. -/
theorem jacobi_iteration_spec (div : Grid ℚ) (pb : DBuf (Grid ℚ)) (k : ℕ) :
    (∀ x y : ℕ,
      ((jacobiOnce div)^[k + 1] pb).read.data x y
        = (((jacobiOnce div)^[k] pb).read.texelC ((x : ℤ) - 1) (y : ℤ)
            + ((jacobiOnce div)^[k] pb).read.texelC ((x : ℤ) + 1) (y : ℤ)
            + ((jacobiOnce div)^[k] pb).read.texelC (x : ℤ) ((y : ℤ) - 1)
            + ((jacobiOnce div)^[k] pb).read.texelC (x : ℤ) ((y : ℤ) + 1)
            - div.texelC (x : ℤ) (y : ℤ)) * (1 / 4))
    ∧ ((jacobiOnce div)^[k + 1] pb).write = ((jacobiOnce div)^[k] pb).read
    ∧ ∀ (s : FluidState) (m : ℕ),
        (stJacobi^[m] s).pressure = (jacobiOnce s.divergence)^[m] s.pressure := by
  refine ⟨?_, ?_, stJacobi_iterate_pressure⟩
  · intro x y
    rw [Function.iterate_succ_apply']
    rfl
  · rw [Function.iterate_succ_apply']
    rfl

/-- Claim C4: the gradient-subtraction stage writes, for every cell,
the existing velocity minus 0.5 times the vector (right-minus-left
pressure, top-minus-bottom pressure), with edge-clamped pressure
neighbors; inside `step` its output becomes the new velocity read
buffer, computed from the solved pressure read buffer and the
post-advection velocity read buffer. -/
theorem gradient_subtraction_spec (p : Grid ℚ) (vel : Grid Vec2) :
    (∀ x y : ℕ,
      (gradientSubtractShader p vel).data x y
        = ((vel.texelC (x : ℤ) (y : ℤ)).1
             - (p.texelC ((x : ℤ) + 1) (y : ℤ) - p.texelC ((x : ℤ) - 1) (y : ℤ)) * (1 / 2),
           (vel.texelC (x : ℤ) (y : ℤ)).2
             - (p.texelC (x : ℤ) ((y : ℤ) + 1) - p.texelC (x : ℤ) ((y : ℤ) - 1)) * (1 / 2)))
    ∧ ∀ (dt : ℚ) (gauss : ℚ → ℚ) (hue aspect : ℚ) (s : FluidState),
        (step dt gauss hue aspect s).velocity.read
          = gradientSubtractShader (postSolve dt gauss hue aspect s).pressure.read
              (postSolve dt gauss hue aspect s).velocity.read :=
  ⟨fun _ _ => rfl, fun _ _ _ _ _ => rfl⟩

/-- Claim C5: with the pressure-iteration count stored as 0, a step
performs no Jacobi iterations, ends with the pressure read buffer zero
at every cell, and gradient subtraction leaves every cell of the
velocity read buffer exactly at its post-advection value (whatever the
divergence is). -/
theorem zero_iterations_no_projection (dt : ℚ) (gauss : ℚ → ℚ) (hue aspect : ℚ)
    (s : FluidState) (h : s.params.pressureIterations = 0) :
    (∀ x y : ℕ, (step dt gauss hue aspect s).pressure.read.data x y = 0)
    ∧ (∀ x y : ℕ, x < (step dt gauss hue aspect s).velocity.read.n →
        y < (step dt gauss hue aspect s).velocity.read.n →
        (step dt gauss hue aspect s).velocity.read.data x y
          = (postAdvect dt gauss hue aspect s).velocity.read.data x y) := by
  have hps : postSolve dt gauss hue aspect s = preSolve dt gauss hue aspect s := by
    unfold postSolve
    rw [preSolve_params, h]
    rfl
  have hstep : step dt gauss hue aspect s
      = stCurl (stGradSub (preSolve dt gauss hue aspect s)) := by
    unfold step
    rw [hps]
  constructor
  · intro x y
    rw [hstep]
    rfl
  · intro x y hx hy
    rw [hstep] at hx hy ⊢
    exact gradientSubtract_zero_pressure _ _ x y hx hy

/-- Witness for C5: the spec's 4x4 scenario — unit rightward impulse
at cell (1,1), zero dye, iteration count 0, pointer inactive. -/
theorem zero_iterations_no_projection_witness :
    exS.params.pressureIterations = 0
    ∧ ((∀ x y : ℕ, (step dt0 gauss0 hue0 aspect0 exS).pressure.read.data x y = 0)
       ∧ (∀ x y : ℕ, x < (step dt0 gauss0 hue0 aspect0 exS).velocity.read.n →
           y < (step dt0 gauss0 hue0 aspect0 exS).velocity.read.n →
           (step dt0 gauss0 hue0 aspect0 exS).velocity.read.data x y
             = (postAdvect dt0 gauss0 hue0 aspect0 exS).velocity.read.data x y)) :=
  ⟨rfl, zero_iterations_no_projection dt0 gauss0 hue0 aspect0 exS rfl⟩

/-- Claim C6: a paused tick returns the state bit-for-bit unchanged
while still handing the last computed fields to the display selector;
resuming (toggling the pause flag back) makes the next tick run `step`
again. -/
theorem pause_freezes_simulation (dt : ℚ) (gauss : ℚ → ℚ) (hue aspect : ℚ)
    (s : FluidState) :
    render true dt gauss hue aspect s = (s, display s)
    ∧ render (togglePause true) dt gauss hue aspect s
        = (step dt gauss hue aspect s, display (step dt gauss hue aspect s)) :=
  ⟨rfl, rfl⟩

/-- Claim C7 (code bug): `clearFluid` zeroes both buffers of velocity,
pressure and dye, but it never blits the curl texture, so after a
clear the curl field still samples its stale pre-clear values — here 1
at cell (0,0) — contradicting both the claim and the source's own
"Clear all textures" comment. -/
theorem clearFluid_leaves_curl_stale :
    (clearFluid cState).curl.data 0 0 ≠ 0
    ∧ (∀ x y : ℕ, (clearFluid cState).velocity.read.data x y = (0, 0))
    ∧ (∀ x y : ℕ, (clearFluid cState).pressure.read.data x y = 0)
    ∧ (∀ x y : ℕ, (clearFluid cState).dye.read.data x y = (0, 0, 0)) :=
  ⟨by decide, fun _ _ => rfl, fun _ _ => rfl, fun _ _ => rfl⟩

/-- Counterexample to claim C8: `updateIterations` performs no range
validation — storing the out-of-range value -1 mutates the parameter
away from its previous value 20. -/
theorem updateIterations_no_validation :
    (updateIterations (-1) defaultParams).pressureIterations
      ≠ defaultParams.pressureIterations := by
  decide

/-- Claim C8 as amended: a parameter-update call stores the provided
value unconditionally, even when it is out of range; a nonpositive
stored iteration count merely makes the pressure loop run zero times. -/
theorem parameter_updates_store_value :
    ∀ (v : ℤ) (w : ℚ) (p : SimParams),
      (updateIterations v p).pressureIterations = v
      ∧ (updateViscosity w p).viscosity = w
      ∧ ∀ s : FluidState, s.params.pressureIterations ≤ 0 →
          stJacobi^[s.params.pressureIterations.toNat] s = s := by
  intro v w p
  refine ⟨rfl, rfl, ?_⟩
  intro s hs
  rw [show s.params.pressureIterations.toNat = 0 by omega]
  rfl

/-- Witness for the amended C8 at the stored value -1. -/
theorem parameter_updates_store_value_witness :
    (updateIterations (-1) defaultParams).pressureIterations = -1
    ∧ negState.params.pressureIterations ≤ 0
    ∧ stJacobi^[negState.params.pressureIterations.toNat] negState = negState :=
  ⟨(parameter_updates_store_value (-1) 0 defaultParams).1,
   by decide,
   (parameter_updates_store_value (-1) 0 defaultParams).2.2 negState (by decide)⟩

/-- Claim C9: sampling any field at a coordinate outside the unit
square returns the same value as sampling at the nearest clamped
in-range coordinate — CLAMP_TO_EDGE never wraps, and since clamped
texel access is total, every per-cell stage operation is total. -/
theorem sample_out_of_range_clamps {α : Type} [AddCommMonoid α] [Module ℚ α]
    (g : Grid α) (hn : 0 < g.n) (u v : ℚ)
    (_hout : ¬(0 ≤ u ∧ u ≤ 1 ∧ 0 ≤ v ∧ v ≤ 1)) :
    g.sample u v = g.sample (clamp01 u) (clamp01 v) :=
  (sample_eq_clamp g hn u v).symm

/-- Witness for C9 on a concrete 2x2 grid at the out-of-range
coordinate (2, 0). -/
theorem sample_out_of_range_clamps_witness :
    0 < g9.n
    ∧ ¬(0 ≤ (2 : ℚ) ∧ (2 : ℚ) ≤ 1 ∧ 0 ≤ (0 : ℚ) ∧ (0 : ℚ) ≤ 1)
    ∧ g9.sample 2 0 = g9.sample (clamp01 2) (clamp01 0) :=
  ⟨by decide, by decide,
   sample_out_of_range_clamps g9 (by decide) 2 0 (by decide)⟩

/-- Counterexample to claim C10: for the out-of-range hue -3 (with
saturation 1 and lightness 1/2 inside [0,1]) the red component of
hslToRgb is -10, far outside [0,1], because the single +-1 adjustment
in hue2rgb cannot bring an arbitrary hue into range. -/
theorem hslToRgb_out_of_gamut :
    ¬(0 ≤ (hslToRgb (-3) 1 (1 / 2)).1 ∧ (hslToRgb (-3) 1 (1 / 2)).1 ≤ 1) := by
  norm_num [hslToRgb, hslQ, hue2rgb, hueWrap, hueAdjust]

/-- Claim C10 as amended: for every hue in [0,1] — which covers every
hue the splat actually passes, since it uses `(Date.now()*0.001) % 1`
— and saturation and lightness in [0,1], all three components of
hslToRgb lie in [0,1]. -/
theorem hslToRgb_in_gamut (h s l : ℚ) (hh0 : 0 ≤ h) (hh1 : h ≤ 1)
    (hs0 : 0 ≤ s) (hs1 : s ≤ 1) (hl0 : 0 ≤ l) (hl1 : l ≤ 1) :
    (0 ≤ (hslToRgb h s l).1 ∧ (hslToRgb h s l).1 ≤ 1)
    ∧ (0 ≤ (hslToRgb h s l).2.1 ∧ (hslToRgb h s l).2.1 ≤ 1)
    ∧ (0 ≤ (hslToRgb h s l).2.2 ∧ (hslToRgb h s l).2.2 ≤ 1) := by
  unfold hslToRgb
  split_ifs with hs
  · exact ⟨⟨hl0, hl1⟩, ⟨hl0, hl1⟩, ⟨hl0, hl1⟩⟩
  · obtain ⟨hp, hpq, hq⟩ := hslQ_bounds s l hs0 hs1 hl0 hl1
    exact ⟨hue2rgb_bounds _ _ _ hp hpq hq (by linarith) (by linarith),
           hue2rgb_bounds _ _ _ hp hpq hq (by linarith) (by linarith),
           hue2rgb_bounds _ _ _ hp hpq hq (by linarith) (by linarith)⟩

/-- Witness for the amended C10 at hue 0, saturation 1, lightness 1. -/
theorem hslToRgb_in_gamut_witness :
    (0 ≤ (0 : ℚ) ∧ (0 : ℚ) ≤ 1 ∧ 0 ≤ (1 : ℚ) ∧ (1 : ℚ) ≤ 1)
    ∧ ((0 ≤ (hslToRgb 0 1 1).1 ∧ (hslToRgb 0 1 1).1 ≤ 1)
       ∧ (0 ≤ (hslToRgb 0 1 1).2.1 ∧ (hslToRgb 0 1 1).2.1 ≤ 1)
       ∧ (0 ≤ (hslToRgb 0 1 1).2.2 ∧ (hslToRgb 0 1 1).2.2 ≤ 1)) :=
  ⟨by decide,
   hslToRgb_in_gamut 0 1 1 (by decide) (by decide) (by decide) (by decide)
     (by decide) (by decide)⟩

end Claims

end StokesFluid
